import Mathlib

/-!
Shallow embedding of `src/pepperbox/models.py` (the `pepperbox` package).

Conventions of the embedding:
* Python strings are Lean `String`s; all character-level operations are
  implemented structurally over `String.data` so that every definition
  evaluates in the kernel.
* `str.split(sep)` (Python, with a non-empty separator) is `pySplit`.
* A raw index entry (JSON object of `str | null` values) is a `PEPData`:
  an association list from field name to `Option String` (`none` = JSON
  null).  Attribute access on `DottedDict` is plain dictionary lookup, so
  a missing key is a `KeyError`: `getField` returns `Except CtorErr`.
* Python exceptions raised during `PEP.__init__` are the constructors of
  `CtorErr`: `KeyError` (missing key), `ValueError` (enum / strptime
  validation), `TypeError` (an operation applied to `None`).
* `datetime.date` values are represented by their proleptic-Gregorian
  epoch day number (days since 1970-01-01, an `Int`); `daysFromCivil`
  converts a year/month/day triple to that representative.  The host's
  local-time UTC offset (what `astimezone` consults for a naive datetime)
  is an explicit parameter `localOffset`, in seconds.
* The lazy `source` / `source_url` machinery (sentinel fields set to `""`
  by the constructor, `_fetch_source`, and the two `cached_property`
  accessors) is modelled by `FetchState` plus `sourceGet` / `sourceUrlGet`
  below; the HTTP transport is a function `String → Option String` from
  URL to the decoded body of a 200 response (`none` = any non-200 status).
-/

namespace Pepperbox

/-- Python `str.split(sep)` on character lists, driven by fuel (each step
consumes at least one character when the separator is non-empty, so fuel
`l.length + 1` is enough). `acc` holds the current piece, reversed. -/
def splitFuel (sep : List Char) : Nat → List Char → List Char → List (List Char)
  | 0, l, acc => [acc.reverse ++ l]
  | _ + 1, [], acc => [acc.reverse]
  | fuel + 1, c :: rest, acc =>
    if sep.isPrefixOf (c :: rest) then
      acc.reverse :: splitFuel sep fuel (List.drop sep.length (c :: rest)) []
    else
      splitFuel sep fuel rest (c :: acc)

/-- Python `s.split(sep)` for a non-empty separator: split on every
non-overlapping occurrence of `sep`, left to right; `"".split(sep)` is
`[""]`. (Python raises on an empty separator; we return `[s]` there, a
case never exercised by the source.) -/
def pySplit (s sep : String) : List String :=
  if sep.data.isEmpty then [s]
  else (splitFuel sep.data (s.data.length + 1) s.data []).map String.mk

/-- Status enumeration `PEPStatus` (models.py lines 44-54). -/
inductive PEPStatus
  | accepted | active | deferred | draft | final | provisional
  | rejected | replaced | superseded | withdrawn
  deriving DecidableEq, Repr

/-- Value lookup performed by the Python `PEPStatus(value)` enum call:
`some` member whose `value` matches, else `none` (a `ValueError`). -/
def PEPStatus.ofString (s : String) : Option PEPStatus :=
  if s = "Accepted" then some .accepted
  else if s = "Active" then some .active
  else if s = "Deferred" then some .deferred
  else if s = "Draft" then some .draft
  else if s = "Final" then some .final
  else if s = "Provisional" then some .provisional
  else if s = "Rejected" then some .rejected
  else if s = "Replaced" then some .replaced
  else if s = "Superseded" then some .superseded
  else if s = "Withdrawn" then some .withdrawn
  else none

/-- Topic enumeration `PEPTopic` (models.py lines 57-61). -/
inductive PEPTopic
  | governance | packaging | release | typing
  deriving DecidableEq, Repr

/-- Value lookup performed by the Python `PEPTopic(value)` enum call. -/
def PEPTopic.ofString (s : String) : Option PEPTopic :=
  if s = "governance" then some .governance
  else if s = "packaging" then some .packaging
  else if s = "release" then some .release
  else if s = "typing" then some .typing
  else none

/-- Type enumeration `PEPType` (models.py lines 64-67).  Note the member
value is `"Standards Track"` — with a space. -/
inductive PEPType
  | informational | process | standardTrack
  deriving DecidableEq, Repr

/-- Value lookup performed by the Python `PEPType(value)` enum call. -/
def PEPType.ofString (s : String) : Option PEPType :=
  if s = "Informational" then some .informational
  else if s = "Process" then some .process
  else if s = "Standards Track" then some .standardTrack
  else none

/-- Exceptions that can escape `PEP.__init__`. -/
inductive CtorErr
  | keyError | valueError | typeError
  deriving DecidableEq, Repr

/-- Raw index entry: JSON object mapping field name to string-or-null,
as stored in `_db` (a `PEPData`, i.e. a `DottedDict[str, str | None]`). -/
abbrev PEPData := List (String × Option String)

/-- Attribute access `data.<key>` on a `DottedDict` delegates to
`dict.__getitem__` (models.py line 20): a missing key is a `KeyError`. -/
def getField (d : PEPData) (k : String) : Except CtorErr (Option String) :=
  match d.lookup k with
  | some v => .ok v
  | none => .error .keyError

/-- Python `frozenset(raw.split(", "))` where `raw` is the `authors`
field; calling `.split` on `None` is a `TypeError`-class failure. The
frozenset is modelled as the deduplicated split list (membership is all
that is observable). -/
def parseAuthors : Option String → Except CtorErr (List String)
  | some s => .ok (pySplit s ", ").dedup
  | none => .error .typeError

/-- Python `PEPStatus(raw)` (models.py line 77): `ValueError` when `raw`
is not a member value (including `None`). -/
def parseStatus : Option String → Except CtorErr PEPStatus
  | some s =>
    match PEPStatus.ofString s with
    | some st => .ok st
    | none => .error .valueError
  | none => .error .valueError

/-- Python `PEPType(raw)` (models.py line 78). -/
def parseType : Option String → Except CtorErr PEPType
  | some s =>
    match PEPType.ofString s with
    | some ty => .ok ty
    | none => .error .valueError
  | none => .error .typeError

/-- Python `list(map(PEPTopic, raw.split(", ") or []))` (models.py line
79).  Note `raw.split(", ")` never yields an empty list (an empty string
splits to `[""]`), so the `or []` branch is dead code; for `raw = ""` the
map applies `PEPTopic("")`, a `ValueError`. -/
def parseTopics : Option String → Except CtorErr (List PEPTopic)
  | some s =>
    let pieces := pySplit s ", "
    let pieces := if pieces.isEmpty then [] else pieces
    pieces.mapM fun p =>
      match PEPTopic.ofString p with
      | some t => Except.ok t
      | none => Except.error CtorErr.valueError
  | none => .error .typeError

/-- Value of a digit list, most significant first (all characters already
checked to be digits). -/
def digitsVal (l : List Char) : Nat :=
  l.foldl (fun acc c => acc * 10 + (c.toNat - 48)) 0

/-- Month number (1-12) from a `%b` abbreviation; CPython's `strptime`
matches month abbreviations case-insensitively. -/
def monthNum (ms : String) : Option Nat :=
  let l := ms.data.map Char.toLower
  let tbl := ["jan", "feb", "mar", "apr", "may", "jun",
              "jul", "aug", "sep", "oct", "nov", "dec"]
  match tbl.findIdx? (fun m => m.data == l) with
  | some i => if i < 12 then some (i + 1) else none
  | none => none

/-- Gregorian leap-year test. -/
def isLeap (y : Nat) : Bool :=
  (y % 4 == 0 && y % 100 != 0) || y % 400 == 0

/-- Length of a month, as validated by the `datetime.date` constructor. -/
def daysInMonth (y m : Nat) : Nat :=
  if m = 2 then (if isLeap y then 29 else 28)
  else if m = 4 ∨ m = 6 ∨ m = 9 ∨ m = 11 then 30
  else 31

/-- Epoch day number (days since 1970-01-01) of a Gregorian calendar
date, for years ≥ 1 (the standard civil-from-days inverse companion). -/
def daysFromCivil (y m d : Nat) : Int :=
  let yAdj : Int := if m ≤ 2 then (y : Int) - 1 else (y : Int)
  let era : Int := yAdj.fdiv 400
  let yoe : Int := yAdj - era * 400
  let mp : Int := ((m : Int) + 9) % 12
  let doy : Int := (153 * mp + 2).fdiv 5 + (d : Int) - 1
  let doe : Int := yoe * 365 + yoe.fdiv 4 - yoe.fdiv 100 + doy
  era * 146097 + doe - 719468

/-- Python `datetime.strptime(s, "%d-%b-%Y")`, reduced to the resulting
`(year, month, day)`: `%d` is one or two digits (day range checked by the
`datetime` constructor), `%b` a month abbreviation, `%Y` exactly four
digits; any mismatch is a `ValueError`. -/
def parseDMY (s : String) : Option (Nat × Nat × Nat) :=
  match pySplit s "-" with
  | [ds, ms, ys] =>
    if ds.data.length = 0 ∨ 2 < ds.data.length ∨ ¬ ds.data.all Char.isDigit then none
    else if ys.data.length ≠ 4 ∨ ¬ ys.data.all Char.isDigit then none
    else
      match monthNum ms with
      | some m =>
        let d := digitsVal ds.data
        let y := digitsVal ys.data
        if 1 ≤ y ∧ 1 ≤ d ∧ d ≤ daysInMonth y m then some (y, m, d) else none
      | none => none
  | _ => none

/-- Python lines 80-85: `datetime.strptime(raw, "%d-%b-%Y")` yields a
naive midnight; `.astimezone(timezone.utc)` reinterprets it in the host's
local timezone (offset `localOffset` seconds east of UTC) and converts to
UTC, and `.date()` takes the floor day of that UTC instant.  `strptime`
of `None` is a `TypeError`, of a malformed string a `ValueError`. -/
def parseCreated (localOffset : Int) : Option String → Except CtorErr Int
  | some s =>
    match parseDMY s with
    | some (y, m, d) =>
      .ok ((daysFromCivil y m d * 86400 - localOffset).fdiv 86400)
    | none => .error .valueError
  | none => .error .typeError

/-- Typed record produced by `PEP.__init__` (models.py lines 70-94);
the lazily fetched `_source` / `_source_url` pair is modelled separately
by `FetchState` (the constructor initialises both sentinels to `""`,
which is exactly `initState`). -/
structure PEP where
  number : Nat
  title : Option String
  authors : List String
  discussions_to : Option String
  status : PEPStatus
  type : PEPType
  topics : List PEPTopic
  created : Int
  python_version : Option String
  post_history : Option String
  resolution : Option String
  requires : Option String
  replaces : Option String
  superseded_by : Option String
  url : Option String
  deriving DecidableEq, Repr

/-- Model of `PEP.__init__(number)` (models.py lines 71-94): look the
number up in `_db` (`KeyError` when absent), then read and convert each
raw field in the source's order.  `db` is the index store `_db`;
`localOffset` is the host's local-time UTC offset in seconds. -/
def mkPEP (db : Nat → Option PEPData) (localOffset : Int) (number : Nat) :
    Except CtorErr PEP := do
  let data ← match db number with
    | some d => Except.ok d
    | none => Except.error CtorErr.keyError
  let title ← getField data "title"
  let authorsRaw ← getField data "authors"
  let authors ← parseAuthors authorsRaw
  let discussions_to ← getField data "discussions_to"
  let statusRaw ← getField data "status"
  let status ← parseStatus statusRaw
  let typeRaw ← getField data "type"
  let type ← parseType typeRaw
  let topicRaw ← getField data "topic"
  let topics ← parseTopics topicRaw
  let createdRaw ← getField data "created"
  let created ← parseCreated localOffset createdRaw
  let python_version ← getField data "python_version"
  let post_history ← getField data "post_history"
  let resolution ← getField data "resolution"
  let requires ← getField data "requires"
  let replaces ← getField data "replaces"
  let superseded_by ← getField data "superseded_by"
  let url ← getField data "url"
  return { number := number, title := title, authors := authors,
           discussions_to := discussions_to, status := status,
           type := type, topics := topics, created := created,
           python_version := python_version, post_history := post_history,
           resolution := resolution, requires := requires,
           replaces := replaces, superseded_by := superseded_by,
           url := url }

/-- Python `"{:04}".format(n)`: decimal digits of `n`, zero-padded on the
left to width 4 (numbers with more digits are printed in full). -/
def pad4 (n : Nat) : String :=
  let s := toString n
  if s.data.length < 4 then String.mk (List.replicate (4 - s.data.length) '0') ++ s
  else s

/-- Content URL built by `BASE_CONTENT_URL.format(int(self), ext)`
(models.py lines 16 and 98). -/
def contentUrl (number : Nat) (ext : String) : String :=
  "https://raw.githubusercontent.com/python/peps/main/peps/pep-" ++
    pad4 number ++ "." ++ ext

/-- Lazy-fetch state of one `PEP` instance: the two sentinel attributes
`_source` / `_source_url` (empty string = unfetched, models.py lines
93-94) and the two `cached_property` slots of `source` / `source_url`
(`none` = the property body has not yet returned normally). -/
structure FetchState where
  source : String
  sourceUrl : String
  sourceCache : Option String
  sourceUrlCache : Option String
  deriving DecidableEq, Repr

/-- State of a freshly constructed `PEP` (constructor lines 93-94). -/
def initState : FetchState :=
  { source := "", sourceUrl := "", sourceCache := none, sourceUrlCache := none }

/-- Model of `PEP._fetch_source` (models.py lines 96-104): try the
extensions `rst` then `txt` in order; on the first 200 response set
`_source_url` and `_source` and stop; if both fail raise
`PepperboxConnectionError` (here `Except.error ()`), leaving the state
untouched.  The second component lists the attempted URLs in order. -/
def fetchSource (t : String → Option String) (number : Nat) (st : FetchState) :
    Except Unit FetchState × List String :=
  let u1 := contentUrl number "rst"
  match t u1 with
  | some body => (.ok { st with sourceUrl := u1, source := body }, [u1])
  | none =>
    let u2 := contentUrl number "txt"
    match t u2 with
    | some body => (.ok { st with sourceUrl := u2, source := body }, [u1, u2])
    | none => (.error (), [u1, u2])

/-- Model of the `source` accessor (models.py lines 106-110): if the
`cached_property` slot is filled return it; otherwise run the body —
fetch when the `_source` sentinel is empty, then return `_source`,
which `cached_property` stores on normal return (an exception leaves
every attribute unchanged and caches nothing).  Returns (result, new
state, attempted URLs). -/
def sourceGet (t : String → Option String) (number : Nat) (st : FetchState) :
    Except Unit String × FetchState × List String :=
  match st.sourceCache with
  | some v => (.ok v, st, [])
  | none =>
    if st.source = "" then
      match fetchSource t number st with
      | (.ok st1, atts) =>
        (.ok st1.source, { st1 with sourceCache := some st1.source }, atts)
      | (.error e, atts) => (.error e, st, atts)
    else
      (.ok st.source, { st with sourceCache := some st.source }, [])

/-- Model of the `source_url` accessor (models.py lines 112-116),
symmetric to `sourceGet` with the `_source_url` sentinel. -/
def sourceUrlGet (t : String → Option String) (number : Nat) (st : FetchState) :
    Except Unit String × FetchState × List String :=
  match st.sourceUrlCache with
  | some v => (.ok v, st, [])
  | none =>
    if st.sourceUrl = "" then
      match fetchSource t number st with
      | (.ok st1, atts) =>
        (.ok st1.sourceUrl, { st1 with sourceUrlCache := some st1.sourceUrl }, atts)
      | (.error e, atts) => (.error e, st, atts)
    else
      (.ok st.sourceUrl, { st with sourceUrlCache := some st.sourceUrl }, [])

/-- Observable operations on one instance's lazy pair. -/
inductive Op
  | src | srcUrl
  deriving DecidableEq, Repr

/-- Run a sequence of accessor invocations, threading the state. -/
def runOps (t : String → Option String) (number : Nat) :
    List Op → FetchState → FetchState
  | [], st => st
  | op :: rest, st =>
    match op with
    | .src => runOps t number rest (sourceGet t number st).2.1
    | .srcUrl => runOps t number rest (sourceUrlGet t number st).2.1

/-- Outcome of one run of `_fetch_source`, independent of the state it
is run from: the body and URL of the first successful extension. -/
def fetchResult (t : String → Option String) (number : Nat) :
    Option (String × String) :=
  match t (contentUrl number "rst") with
  | some b => some (b, contentUrl number "rst")
  | none =>
    match t (contentUrl number "txt") with
    | some b => some (b, contentUrl number "txt")
    | none => none

/-- Success test for an `Except` value. -/
def isOk {ε α : Type} : Except ε α → Bool
  | .ok _ => true
  | .error _ => false

/-- Authors list of a construction result (empty on failure; only used
together with a success hypothesis). -/
def authorsOf : Except CtorErr PEP → List String
  | .ok p => p.authors
  | .error _ => []

/-- Raw index entry of identifier 8, as in the spec's worked example
(note the empty `topic` field, as in the live index). -/
def data8 : PEPData :=
  [("title", some "Style Guide for Python Code"),
   ("authors", some "Barry Warsaw, Jeremy Hylton"),
   ("discussions_to", none),
   ("status", some "Active"),
   ("type", some "Process"),
   ("topic", some ""),
   ("created", some "05-Jul-2000"),
   ("python_version", none),
   ("post_history", none),
   ("resolution", none),
   ("requires", none),
   ("replaces", none),
   ("superseded_by", none),
   ("url", some "https://peps.python.org/pep-0008/")]

/-- Index store holding only the entry of identifier 8. -/
def db8 : Nat → Option PEPData := fun n => if n = 8 then some data8 else none

/-- Variant of `data8` whose `topic` field is non-empty and valid (used
where a successful construction is needed). -/
def data8t : PEPData :=
  [("title", some "Style Guide for Python Code"),
   ("authors", some "Barry Warsaw, Jeremy Hylton"),
   ("discussions_to", none),
   ("status", some "Active"),
   ("type", some "Process"),
   ("topic", some "governance, typing"),
   ("created", some "05-Jul-2000"),
   ("python_version", none),
   ("post_history", none),
   ("resolution", none),
   ("requires", none),
   ("replaces", none),
   ("superseded_by", none),
   ("url", some "https://peps.python.org/pep-0008/")]

/-- Index store holding only `data8t` under identifier 8. -/
def db8t : Nat → Option PEPData := fun n => if n = 8 then some data8t else none


/-- Raw type values accepted by `PEPType` (models.py lines 64-67). -/
def typeValues : List String := ["Informational", "Process", "Standards Track"]

/-- Raw status values accepted by `PEPStatus` (models.py lines 44-54). -/
def statusValues : List String :=
  ["Accepted", "Active", "Deferred", "Draft", "Final", "Provisional",
   "Rejected", "Replaced", "Superseded", "Withdrawn"]

/-- Copy of `data8t` whose raw `type` field is an arbitrary value `v`. -/
def dataT (v : String) : PEPData :=
  [("title", some "Style Guide for Python Code"),
   ("authors", some "Barry Warsaw, Jeremy Hylton"),
   ("discussions_to", none),
   ("status", some "Active"),
   ("type", some v),
   ("topic", some "governance, typing"),
   ("created", some "05-Jul-2000"),
   ("python_version", none),
   ("post_history", none),
   ("resolution", none),
   ("requires", none),
   ("replaces", none),
   ("superseded_by", none),
   ("url", some "https://peps.python.org/pep-0008/")]

/-- Index store holding only `dataT v` under identifier 1. -/
def dbT (v : String) : Nat → Option PEPData :=
  fun n => if n = 1 then some (dataT v) else none

/-- C5 witness transport: 404 for everything except the txt URL of 8. -/
def tOnlyTxt : String → Option String :=
  fun u => if u = contentUrl 8 "txt" then some "pep text" else none

/-- Claimed invariant of the lazy pair: `_source` and `_source_url` are
both at their unset sentinel `""` or both set. -/
def BothOrNone (st : FetchState) : Prop :=
  (st.source = "" ∧ st.sourceUrl = "") ∨ (st.source ≠ "" ∧ st.sourceUrl ≠ "")

/-- Inductive invariant of a record's lazy-fetch state under a transport
whose successful bodies are non-empty: either completely unfetched, or
both fields hold the (deterministic) fetch result with each
`cached_property` slot empty or agreeing with it. -/
def Inv (t : String → Option String) (n : Nat) (st : FetchState) : Prop :=
  (st.source = "" ∧ st.sourceUrl = "" ∧
   st.sourceCache = none ∧ st.sourceUrlCache = none)
  ∨ ∃ b u, fetchResult t n = some (b, u) ∧ b ≠ "" ∧ u ≠ "" ∧
      st.source = b ∧ st.sourceUrl = u ∧
      (st.sourceCache = none ∨ st.sourceCache = some b) ∧
      (st.sourceUrlCache = none ∨ st.sourceUrlCache = some u)

/-- Transport returning a 200 response with an EMPTY body for the rst
URL of identifier 8 (the case the sentinel design cannot represent). -/
def tEmptyBody : String → Option String :=
  fun u => if u = contentUrl 8 "rst" then some "" else none

/-- Keys read (in order) by `PEP.__init__` from the raw mapping. -/
def readKeys : List String :=
  ["title", "authors", "discussions_to", "status", "type", "topic",
   "created", "python_version", "post_history", "resolution", "requires",
   "replaces", "superseded_by", "url"]

/-- Position of a key in a key list (length of the list if absent). -/
def listIdx : List String → String → Nat
  | [], _ => 0
  | a :: rest, k => if a = k then 0 else listIdx rest k + 1

/-- Position of a key in the constructor's read order. -/
def readIdx (k : String) : Nat := listIdx readKeys k

/-- Well-formedness of the convertible fields read BEFORE key `k`: every
such field that is present parses.  Fields read at or after `k`, and
missing fields, are not constrained — exactly the proviso of the amended
claim C10. -/
def PresentValidBefore (off : Int) (data : PEPData) (k : String) : Prop :=
  (readIdx "authors" < readIdx k →
    ∀ v, data.lookup "authors" = some v → isOk (parseAuthors v) = true) ∧
  (readIdx "status" < readIdx k →
    ∀ v, data.lookup "status" = some v → isOk (parseStatus v) = true) ∧
  (readIdx "type" < readIdx k →
    ∀ v, data.lookup "type" = some v → isOk (parseType v) = true) ∧
  (readIdx "topic" < readIdx k →
    ∀ v, data.lookup "topic" = some v → isOk (parseTopics v) = true) ∧
  (readIdx "created" < readIdx k →
    ∀ v, data.lookup "created" = some v → isOk (parseCreated off v) = true)

/-- Raw mapping that lacks the `topic` key and carries an invalid
`status` value, read before `topic` in the constructor. -/
def dataBogus : PEPData :=
  [("title", some "T"), ("authors", some "A"), ("discussions_to", none),
   ("status", some "Bogus"), ("type", some "Process"),
   ("created", some "05-Jul-2000"), ("python_version", none),
   ("post_history", none), ("resolution", none), ("requires", none),
   ("replaces", none), ("superseded_by", none), ("url", some "u")]

/-- Raw mapping that lacks the `topic` key, all present fields valid. -/
def dataNoTopic : PEPData :=
  [("title", some "T"), ("authors", some "A"), ("discussions_to", none),
   ("status", some "Active"), ("type", some "Process"),
   ("created", some "05-Jul-2000"), ("python_version", none),
   ("post_history", none), ("resolution", none), ("requires", none),
   ("replaces", none), ("superseded_by", none), ("url", some "u")]

/-- Raw mapping that lacks the `title` key — the very first read — and
additionally carries an invalid `status` value, which is read only
after `title` and therefore never reached. -/
def dataNoTitle : PEPData :=
  [("authors", some "A"), ("discussions_to", none),
   ("status", some "Bogus"), ("type", some "Process"),
   ("topic", some "typing"), ("created", some "05-Jul-2000"),
   ("python_version", none), ("post_history", none), ("resolution", none),
   ("requires", none), ("replaces", none), ("superseded_by", none),
   ("url", some "u")]

end Pepperbox

deriving instance DecidableEq for Except

namespace Pepperbox

@[simp]
theorem okBind {ε α β : Type} (a : α) (f : α → Except ε β) :
    (Except.ok a >>= f) = f a := rfl

@[simp]
theorem errorBind {ε α β : Type} (e : ε) (f : α → Except ε β) :
    ((Except.error e : Except ε α) >>= f) = Except.error e := rfl

@[simp]
theorem pureEqOk {ε α : Type} (a : α) :
    (pure a : Except ε α) = Except.ok a := rfl

@[simp]
theorem isOkOk {ε α : Type} (a : α) : isOk (Except.ok a : Except ε α) = true := rfl

@[simp]
theorem isOkError {ε α : Type} (e : ε) :
    isOk (Except.error e : Except ε α) = false := rfl

theorem bindIsOk {ε α β : Type} {x : Except ε α} {f : α → Except ε β}
    (h : isOk (x >>= f) = true) : ∃ a, x = Except.ok a ∧ isOk (f a) = true := by
  cases x with
  | ok a => exact ⟨a, rfl, h⟩
  | error e => simp at h

end Pepperbox

namespace Pepperbox

/-- C1: the claim says an empty raw `topic` yields an empty topics list,
but `"".split(", ")` is `[""]`, so the `or []` guard on line 79 is dead
and `PEPTopic("")` raises `ValueError`: constructing the spec's own
example entry (identifier 8, raw topic `""`) fails with a validation
error instead of succeeding with `topics = []`. -/
theorem c1_empty_topic_raises :
    pySplit "" ", " = [""] ∧
    parseTopics (some "") = Except.error CtorErr.valueError ∧
    data8.lookup "topic" = some (some "") ∧
    mkPEP db8 0 8 = Except.error CtorErr.valueError := by decide

/-- C3: `strptime` returns a naive midnight and `astimezone(timezone.utc)`
reinterprets it in the host's local timezone, so the resulting calendar
date is environment-dependent: on a host at UTC+1 (offset 3600 s) the raw
text `"05-Jul-2000"` yields 2000-07-04, not the claimed 2000-07-05 (which
only holds for hosts at or west of UTC, offset ≤ 0). -/
theorem c3_created_shifts_east_of_utc :
    parseCreated 0 (some "05-Jul-2000") = Except.ok (daysFromCivil 2000 7 5) ∧
    parseCreated 3600 (some "05-Jul-2000") = Except.ok (daysFromCivil 2000 7 4) ∧
    daysFromCivil 2000 7 4 ≠ daysFromCivil 2000 7 5 := by decide

/-- C8: an identifier absent from the index store makes `_db[number]`
raise `KeyError`, which propagates out of the constructor: no record is
produced. -/
theorem c8_absent_identifier_key_error (db : Nat → Option PEPData)
    (off : Int) (n : Nat) (h : db n = none) :
    mkPEP db off n = Except.error CtorErr.keyError := by
  simp [mkPEP, h]

/-- C8 witness: the empty index store at identifier 1. -/
theorem c8_absent_identifier_key_error_witness :
    (fun _ : Nat => (none : Option PEPData)) 1 = none ∧
    mkPEP (fun _ => none) 0 1 = Except.error CtorErr.keyError :=
  ⟨rfl, c8_absent_identifier_key_error (fun _ => none) 0 1 rfl⟩

/-- C9: for every successfully constructed record, the authors accessor
(a frozenset, observed through membership) holds exactly the pieces of
the raw `authors` string split on `", "`. -/
theorem c9_authors_is_split_set (db : Nat → Option PEPData) (off : Int)
    (n : Nat) (data : PEPData) (s : String)
    (hdb : db n = some data)
    (hauth : data.lookup "authors" = some (some s))
    (hok : isOk (mkPEP db off n) = true) :
    ∀ x : String, x ∈ authorsOf (mkPEP db off n) ↔ x ∈ pySplit s ", " := by
  have hA : getField data "authors" = Except.ok (some s) := by
    simp [getField, hauth]
  unfold mkPEP at hok
  rw [hdb] at hok
  obtain ⟨d0, hd0, hok⟩ := bindIsOk hok
  obtain rfl : data = d0 := by injection hd0
  obtain ⟨t1, ht1, hok⟩ := bindIsOk hok
  obtain ⟨a2, ha2, hok⟩ := bindIsOk hok
  rw [hA] at ha2
  obtain rfl : some s = a2 := by injection ha2
  obtain ⟨A3, hA3, hok⟩ := bindIsOk hok
  obtain ⟨d4, h4, hok⟩ := bindIsOk hok
  obtain ⟨s5, h5, hok⟩ := bindIsOk hok
  obtain ⟨st6, h6, hok⟩ := bindIsOk hok
  obtain ⟨t7, h7, hok⟩ := bindIsOk hok
  obtain ⟨ty8, h8, hok⟩ := bindIsOk hok
  obtain ⟨tp9, h9, hok⟩ := bindIsOk hok
  obtain ⟨tl10, h10, hok⟩ := bindIsOk hok
  obtain ⟨c11, h11, hok⟩ := bindIsOk hok
  obtain ⟨cr12, h12, hok⟩ := bindIsOk hok
  obtain ⟨p13, h13, hok⟩ := bindIsOk hok
  obtain ⟨p14, h14, hok⟩ := bindIsOk hok
  obtain ⟨r15, h15, hok⟩ := bindIsOk hok
  obtain ⟨r16, h16, hok⟩ := bindIsOk hok
  obtain ⟨r17, h17, hok⟩ := bindIsOk hok
  obtain ⟨s18, h18, hok⟩ := bindIsOk hok
  obtain ⟨u19, h19, hok⟩ := bindIsOk hok
  have hA3v : (pySplit s ", ").dedup = A3 := by
    simp [parseAuthors] at hA3
    exact hA3
  have hmk : mkPEP db off n =
      Except.ok { number := n, title := t1, authors := A3,
                  discussions_to := d4, status := st6, type := ty8,
                  topics := tl10, created := cr12,
                  python_version := p13, post_history := p14,
                  resolution := r15, requires := r16, replaces := r17,
                  superseded_by := s18, url := u19 } := by
    simp [mkPEP, hdb, ht1, hA, hA3, h4, h5, h6, h7, h8, h9, h10, h11,
          h12, h13, h14, h15, h16, h17, h18, h19]
  intro x
  rw [hmk]
  simp [authorsOf, ← hA3v, List.mem_dedup]

/-- C4 counterexample: the enum member value in the code is
`"Standards Track"` (a space), so the claim's spelling `"Standards-Track"`
is rejected with a validation error while `"Standards Track"` — outside
the claim's list — is accepted, falsifying both directions of the claimed
equivalence. -/
theorem c4_type_spelling_counterexample :
    parseType (some "Standards-Track") = Except.error CtorErr.valueError ∧
    parseType (some "Standards Track") = Except.ok PEPType.standardTrack ∧
    mkPEP (dbT "Standards-Track") 0 1 = Except.error CtorErr.valueError ∧
    isOk (mkPEP (dbT "Standards Track") 0 1) = true := by decide

/-- C4 (amended): a raw `type` value validates if and only if it is one
of Informational, Process, Standards Track (with a space), and a raw
`status` value iff it is one of the ten listed statuses; for an
otherwise-valid entry, construction succeeds exactly when the type value
validates. -/
theorem c4_enum_validation (v : String) :
    (isOk (parseType (some v)) = true ↔ v ∈ typeValues) ∧
    (isOk (parseStatus (some v)) = true ↔ v ∈ statusValues) ∧
    isOk (mkPEP (dbT v) 0 1) = isOk (parseType (some v)) := by
  refine ⟨?_, ?_, ?_⟩
  · rcases hv : PEPType.ofString v with _ | ty
    · have hgoal : isOk (parseType (some v)) = false := by simp [parseType, hv]
      simp [hgoal, typeValues]
      refine ⟨?_, ?_, ?_⟩ <;> rintro rfl <;> simp [PEPType.ofString] at hv
    · have hgoal : isOk (parseType (some v)) = true := by simp [parseType, hv]
      simp [hgoal, typeValues]
      revert hv
      unfold PEPType.ofString
      split_ifs with h1 h2 h3 <;> intro hv <;> simp_all
  · rcases hv : PEPStatus.ofString v with _ | stv
    · have hgoal : isOk (parseStatus (some v)) = false := by simp [parseStatus, hv]
      simp [hgoal, statusValues]
      refine ⟨?_, ?_, ?_, ?_, ?_, ?_, ?_, ?_, ?_, ?_⟩ <;> rintro rfl <;>
        simp [PEPStatus.ofString] at hv
    · have hgoal : isOk (parseStatus (some v)) = true := by simp [parseStatus, hv]
      simp [hgoal, statusValues]
      revert hv
      unfold PEPStatus.ofString
      split_ifs with h1 h2 h3 h4 h5 h6 h7 h8 h9 h10 <;> intro hv <;> simp_all
  · have e0 : dbT v 1 = some (dataT v) := rfl
    have e1 : getField (dataT v) "title" =
        Except.ok (some "Style Guide for Python Code") := rfl
    have e2 : getField (dataT v) "authors" =
        Except.ok (some "Barry Warsaw, Jeremy Hylton") := rfl
    have e3 : parseAuthors (some "Barry Warsaw, Jeremy Hylton") =
        Except.ok (pySplit "Barry Warsaw, Jeremy Hylton" ", ").dedup := rfl
    have e4 : getField (dataT v) "discussions_to" = Except.ok none := rfl
    have e5 : getField (dataT v) "status" = Except.ok (some "Active") := rfl
    have e6 : parseStatus (some "Active") = Except.ok PEPStatus.active := rfl
    have e7 : getField (dataT v) "type" = Except.ok (some v) := rfl
    have e9 : getField (dataT v) "topic" =
        Except.ok (some "governance, typing") := rfl
    have e10 : parseTopics (some "governance, typing") =
        Except.ok [PEPTopic.governance, PEPTopic.typing] := by decide
    have e11 : getField (dataT v) "created" =
        Except.ok (some "05-Jul-2000") := rfl
    have e12 : parseCreated 0 (some "05-Jul-2000") = Except.ok 11143 := by decide
    have e13 : getField (dataT v) "python_version" = Except.ok none := rfl
    have e14 : getField (dataT v) "post_history" = Except.ok none := rfl
    have e15 : getField (dataT v) "resolution" = Except.ok none := rfl
    have e16 : getField (dataT v) "requires" = Except.ok none := rfl
    have e17 : getField (dataT v) "replaces" = Except.ok none := rfl
    have e18 : getField (dataT v) "superseded_by" = Except.ok none := rfl
    have e19 : getField (dataT v) "url" =
        Except.ok (some "https://peps.python.org/pep-0008/") := rfl
    rcases h : parseType (some v) with e | ty <;>
      (unfold mkPEP;
       simp only [e0, e1, e2, e3, e4, e5, e6, e7, e9, e10, e11, e12, e13,
                  e14, e15, e16, e17, e18, e19, h, okBind, errorBind,
                  pureEqOk, isOkOk, isOkError])

theorem strAppendAssoc (a b c : String) : a ++ b ++ c = a ++ (b ++ c) := by
  rcases a with ⟨la⟩
  rcases b with ⟨lb⟩
  rcases c with ⟨lc⟩
  show String.mk (la ++ lb ++ lc) = String.mk (la ++ (lb ++ lc))
  rw [List.append_assoc]

/-- C5: with a transport failing for `rst` and succeeding for `txt`, the
body accessor makes exactly the two attempts `rst` then `txt`, caches the
`txt` body and URL (populating both sentinel fields and the body's
`cached_property` slot), and the resulting source URL — built from the
zero-padded 4-digit identifier and the extension — ends in ".txt". -/
theorem c5_extension_fallback (t : String → Option String) (n : Nat)
    (body : String)
    (h1 : t (contentUrl n "rst") = none)
    (h2 : t (contentUrl n "txt") = some body) :
    sourceGet t n initState =
      (Except.ok body,
       { source := body, sourceUrl := contentUrl n "txt",
         sourceCache := some body, sourceUrlCache := none },
       [contentUrl n "rst", contentUrl n "txt"]) ∧
    ∃ p, contentUrl n "txt" = p ++ ".txt" := by
  constructor
  · simp [sourceGet, initState, fetchSource, h1, h2]
  · refine ⟨"https://raw.githubusercontent.com/python/peps/main/peps/pep-" ++
      pad4 n, ?_⟩
    show "https://raw.githubusercontent.com/python/peps/main/peps/pep-" ++
        pad4 n ++ "." ++ "txt" = _
    rw [strAppendAssoc, show ("." : String) ++ "txt" = ".txt" from rfl]

/-- C5 witness: identifier 8 with `tOnlyTxt`. -/
theorem c5_extension_fallback_witness :
    tOnlyTxt (contentUrl 8 "rst") = none ∧
    tOnlyTxt (contentUrl 8 "txt") = some "pep text" ∧
    (sourceGet tOnlyTxt 8 initState =
      (Except.ok "pep text",
       { source := "pep text", sourceUrl := contentUrl 8 "txt",
         sourceCache := some "pep text", sourceUrlCache := none },
       [contentUrl 8 "rst", contentUrl 8 "txt"]) ∧
     ∃ p, contentUrl 8 "txt" = p ++ ".txt") :=
  ⟨by decide, by decide,
   c5_extension_fallback tOnlyTxt 8 "pep text" (by decide) (by decide)⟩

/-- C6: when both extensions fail, the body accessor raises the
content-not-found error after attempting `rst` then `txt`, the sentinel
fields and `cached_property` slots are left exactly as the constructor
set them (failure is not cached), and a second invocation repeats both
attempts. -/
theorem c6_all_candidates_fail (t : String → Option String) (n : Nat)
    (h1 : t (contentUrl n "rst") = none)
    (h2 : t (contentUrl n "txt") = none) :
    sourceGet t n initState =
      (Except.error (), initState, [contentUrl n "rst", contentUrl n "txt"]) ∧
    sourceGet t n (sourceGet t n initState).2.1 =
      (Except.error (), initState, [contentUrl n "rst", contentUrl n "txt"]) := by
  have hone : sourceGet t n initState =
      (Except.error (), initState, [contentUrl n "rst", contentUrl n "txt"]) := by
    simp [sourceGet, initState, fetchSource, h1, h2]
  refine ⟨hone, ?_⟩
  rw [hone]
  exact hone

/-- C6 witness: the always-404 transport at identifier 8. -/
theorem c6_all_candidates_fail_witness :
    (fun _ : String => (none : Option String)) (contentUrl 8 "rst") = none ∧
    (sourceGet (fun _ => none) 8 initState =
      (Except.error (), initState, [contentUrl 8 "rst", contentUrl 8 "txt"]) ∧
     sourceGet (fun _ => none) 8 (sourceGet (fun _ => none) 8 initState).2.1 =
      (Except.error (), initState, [contentUrl 8 "rst", contentUrl 8 "txt"])) :=
  ⟨rfl, c6_all_candidates_fail (fun _ => none) 8 rfl rfl⟩

/-- C7: once the first `source` invocation succeeds, a second invocation
returns the identical text from the `cached_property` slot, changes
nothing, and performs no further fetch attempts. -/
theorem c7_body_fetch_idempotent (t : String → Option String) (n : Nat)
    (body : String) (st1 : FetchState) (atts : List String)
    (h : sourceGet t n initState = (Except.ok body, st1, atts)) :
    sourceGet t n st1 = (Except.ok body, st1, []) := by
  rcases hf : fetchSource t n initState with ⟨r, a⟩
  simp only [initState] at hf
  rcases r with e | stf
  · simp [sourceGet, initState, hf] at h
  · simp [sourceGet, initState, hf] at h
    obtain ⟨hb, hst, ha⟩ := h
    subst hst
    simp [sourceGet, hb]

/-- C7 witness: a transport succeeding immediately with body "text". -/
theorem c7_body_fetch_idempotent_witness :
    sourceGet (fun _ => some "text") 8 initState =
      (Except.ok "text",
       { source := "text", sourceUrl := contentUrl 8 "rst",
         sourceCache := some "text", sourceUrlCache := none },
       [contentUrl 8 "rst"]) ∧
    sourceGet (fun _ => some "text") 8
        { source := "text", sourceUrl := contentUrl 8 "rst",
          sourceCache := some "text", sourceUrlCache := none } =
      (Except.ok "text",
       { source := "text", sourceUrl := contentUrl 8 "rst",
         sourceCache := some "text", sourceUrlCache := none },
       []) :=
  ⟨by decide,
   c7_body_fetch_idempotent (fun _ => some "text") 8 "text"
     { source := "text", sourceUrl := contentUrl 8 "rst",
       sourceCache := some "text", sourceUrlCache := none }
     [contentUrl 8 "rst"] (by decide)⟩

theorem strDataAppend (a b : String) : (a ++ b).data = a.data ++ b.data := by
  rcases a with ⟨la⟩
  rcases b with ⟨lb⟩
  rfl

theorem contentUrlNeEmpty (n : Nat) (ext : String) : contentUrl n ext ≠ "" := by
  intro h
  have hd := congrArg String.data h
  rw [contentUrl] at hd
  rw [strDataAppend, strDataAppend, strDataAppend] at hd
  simp only [List.append_eq_nil] at hd
  exact absurd hd.1.1.1 (by decide)

theorem fetchResultProps (t : String → Option String) (n : Nat)
    (hgood : ∀ u b, t u = some b → b ≠ "") {b u : String}
    (h : fetchResult t n = some (b, u)) : b ≠ "" ∧ u ≠ "" := by
  unfold fetchResult at h
  rcases h1 : t (contentUrl n "rst") with _ | b1
  · rw [h1] at h
    rcases h2 : t (contentUrl n "txt") with _ | b2
    · rw [h2] at h
      cases h
    · rw [h2] at h
      simp at h
      obtain ⟨rfl, rfl⟩ := h
      exact ⟨hgood _ _ h2, contentUrlNeEmpty n "txt"⟩
  · rw [h1] at h
    simp at h
    obtain ⟨rfl, rfl⟩ := h
    exact ⟨hgood _ _ h1, contentUrlNeEmpty n "rst"⟩

theorem fetchSourceNone (t : String → Option String) (n : Nat)
    (h : fetchResult t n = none) (st : FetchState) :
    fetchSource t n st =
      (Except.error (), [contentUrl n "rst", contentUrl n "txt"]) := by
  unfold fetchResult at h
  unfold fetchSource
  rcases h1 : t (contentUrl n "rst") with _ | b1
  · rcases h2 : t (contentUrl n "txt") with _ | b2
    · simp [h1, h2]
    · rw [h1, h2] at h
      simp at h
  · rw [h1] at h
    simp at h

theorem fetchSourceOkEx (t : String → Option String) (n : Nat)
    (st : FetchState) {b u : String} (h : fetchResult t n = some (b, u)) :
    ∃ atts, fetchSource t n st =
      (Except.ok { st with sourceUrl := u, source := b }, atts) := by
  unfold fetchResult at h
  unfold fetchSource
  rcases h1 : t (contentUrl n "rst") with _ | b1
  · rw [h1] at h
    rcases h2 : t (contentUrl n "txt") with _ | b2
    · rw [h2] at h
      cases h
    · rw [h2] at h
      simp at h
      obtain ⟨rfl, rfl⟩ := h
      refine ⟨[contentUrl n "rst", contentUrl n "txt"], ?_⟩
      simp [h1, h2]
  · rw [h1] at h
    simp at h
    obtain ⟨rfl, rfl⟩ := h
    refine ⟨[contentUrl n "rst"], ?_⟩
    simp [h1]

theorem invStepSrc (t : String → Option String) (n : Nat)
    (hgood : ∀ u b, t u = some b → b ≠ "") {st : FetchState}
    (hInv : Inv t n st) : Inv t n (sourceGet t n st).2.1 := by
  rcases hc : st.sourceCache with _ | v
  · rcases hInv with ⟨hs, hu, hsc, huc⟩ | ⟨b, u, hr, hb, hu0, hs, hu, hsc, huc⟩
    · rcases hrr : fetchResult t n with _ | ⟨b, u⟩
      · have hfs := fetchSourceNone t n hrr st
        have hst : (sourceGet t n st).2.1 = st := by
          simp [sourceGet, hc, hs, hfs]
        rw [hst]
        exact Or.inl ⟨hs, hu, hsc, huc⟩
      · obtain ⟨atts0, hfs⟩ := fetchSourceOkEx t n st hrr
        obtain ⟨hb, hu2⟩ := fetchResultProps t n hgood hrr
        have hst : (sourceGet t n st).2.1 =
            { st with sourceUrl := u, source := b, sourceCache := some b } := by
          simp [sourceGet, hc, hs, hfs]
        rw [hst]
        exact Or.inr ⟨b, u, hrr, hb, hu2, rfl, rfl, Or.inr rfl, Or.inl huc⟩
    · have hnz : st.source ≠ "" := by rw [hs]; exact hb
      have hst : (sourceGet t n st).2.1 =
          { st with sourceCache := some st.source } := by
        simp [sourceGet, hc, hnz]
      rw [hst]
      exact Or.inr ⟨b, u, hr, hb, hu0, hs, hu, Or.inr (by rw [hs]), huc⟩
  · have hst : (sourceGet t n st).2.1 = st := by simp [sourceGet, hc]
    rw [hst]
    exact hInv

theorem invStepUrl (t : String → Option String) (n : Nat)
    (hgood : ∀ u b, t u = some b → b ≠ "") {st : FetchState}
    (hInv : Inv t n st) : Inv t n (sourceUrlGet t n st).2.1 := by
  rcases hc : st.sourceUrlCache with _ | v
  · rcases hInv with ⟨hs, hu, hsc, huc⟩ | ⟨b, u, hr, hb, hu0, hs, hu, hsc, huc⟩
    · rcases hrr : fetchResult t n with _ | ⟨b, u⟩
      · have hfs := fetchSourceNone t n hrr st
        have hst : (sourceUrlGet t n st).2.1 = st := by
          simp [sourceUrlGet, hc, hu, hfs]
        rw [hst]
        exact Or.inl ⟨hs, hu, hsc, huc⟩
      · obtain ⟨atts0, hfs⟩ := fetchSourceOkEx t n st hrr
        obtain ⟨hb, hu2⟩ := fetchResultProps t n hgood hrr
        have hst : (sourceUrlGet t n st).2.1 =
            { st with sourceUrl := u, source := b, sourceUrlCache := some u } := by
          simp [sourceUrlGet, hc, hu, hfs]
        rw [hst]
        exact Or.inr ⟨b, u, hrr, hb, hu2, rfl, rfl, Or.inl hsc, Or.inr rfl⟩
    · have hnz : st.sourceUrl ≠ "" := by rw [hu]; exact hu0
      have hst : (sourceUrlGet t n st).2.1 =
          { st with sourceUrlCache := some st.sourceUrl } := by
        simp [sourceUrlGet, hc, hnz]
      rw [hst]
      exact Or.inr ⟨b, u, hr, hb, hu0, hs, hu, hsc, Or.inr (by rw [hu])⟩
  · have hst : (sourceUrlGet t n st).2.1 = st := by simp [sourceUrlGet, hc]
    rw [hst]
    exact hInv

theorem invRun (t : String → Option String) (n : Nat)
    (hgood : ∀ u b, t u = some b → b ≠ "") (ops : List Op) :
    ∀ st, Inv t n st → Inv t n (runOps t n ops st) := by
  induction ops with
  | nil =>
    intro st h
    simpa [runOps] using h
  | cons op rest ih =>
    intro st h
    cases op
    · simpa [runOps] using ih _ (invStepSrc t n hgood h)
    · simpa [runOps] using ih _ (invStepUrl t n hgood h)

theorem invBoth {t : String → Option String} {n : Nat} {st : FetchState}
    (h : Inv t n st) : BothOrNone st := by
  rcases h with ⟨hs, hu, _, _⟩ | ⟨b, u, _, hb, hu0, hs, hu, _, _⟩
  · exact Or.inl ⟨hs, hu⟩
  · refine Or.inr ⟨?_, ?_⟩
    · rw [hs]; exact hb
    · rw [hu]; exact hu0

/-- C2 (amended): provided every successful transport body is non-empty
(the sentinel value `""` cannot masquerade as content), the lazy pair is
both-unset or both-set in every reachable state, and whichever accessor
runs first on a fresh record and succeeds populates both fields, after
which the other accessor answers from the populated state with no fetch
attempt. -/
theorem c2_lazy_pair_caching (t : String → Option String) (n : Nat)
    (hgood : ∀ u b, t u = some b → b ≠ "") :
    (∀ ops : List Op, BothOrNone (runOps t n ops initState)) ∧
    (∀ body st1 atts, sourceGet t n initState = (Except.ok body, st1, atts) →
      st1.source ≠ "" ∧ st1.sourceUrl ≠ "" ∧
      sourceUrlGet t n st1 =
        (Except.ok st1.sourceUrl,
         { st1 with sourceUrlCache := some st1.sourceUrl }, [])) ∧
    (∀ uo st1 atts, sourceUrlGet t n initState = (Except.ok uo, st1, atts) →
      st1.source ≠ "" ∧ st1.sourceUrl ≠ "" ∧
      sourceGet t n st1 =
        (Except.ok st1.source,
         { st1 with sourceCache := some st1.source }, [])) := by
  have hcache : initState.sourceCache = none := rfl
  have hucache : initState.sourceUrlCache = none := rfl
  have hsrc : initState.source = "" := rfl
  have hurl : initState.sourceUrl = "" := rfl
  refine ⟨?_, ?_, ?_⟩
  · intro ops
    exact invBoth (invRun t n hgood ops initState (Or.inl ⟨rfl, rfl, rfl, rfl⟩))
  · intro body st1 atts h
    rcases hrr : fetchResult t n with _ | ⟨b, u⟩
    · have hfs := fetchSourceNone t n hrr initState
      simp [sourceGet, hcache, hsrc, hfs] at h
    · obtain ⟨atts0, hfs⟩ := fetchSourceOkEx t n initState hrr
      obtain ⟨hb, hu⟩ := fetchResultProps t n hgood hrr
      simp [sourceGet, hcache, hsrc, hfs] at h
      obtain ⟨hb2, hst, hatts⟩ := h
      subst hst
      refine ⟨by simpa [initState] using hb, by simpa [initState] using hu, ?_⟩
      simp [sourceUrlGet, initState, hu]
  · intro uo st1 atts h
    rcases hrr : fetchResult t n with _ | ⟨b, u⟩
    · have hfs := fetchSourceNone t n hrr initState
      simp [sourceUrlGet, hucache, hurl, hfs] at h
    · obtain ⟨atts0, hfs⟩ := fetchSourceOkEx t n initState hrr
      obtain ⟨hb, hu⟩ := fetchResultProps t n hgood hrr
      simp [sourceUrlGet, hucache, hurl, hfs] at h
      obtain ⟨hu2, hst, hatts⟩ := h
      subst hst
      refine ⟨by simpa [initState] using hb, by simpa [initState] using hu, ?_⟩
      simp [sourceGet, initState, hb]

/-- C2 counterexample: with a successful fetch whose body is the empty
string, invoking `source_url` first leaves `_source_url` set while
`_source` still holds the unset sentinel — the pair is neither both
unset nor both set — and the subsequent `source` invocation performs a
whole new fetch sequence (two more attempts) instead of returning
without fetching. -/
theorem c2_lazy_pair_counterexample :
    tEmptyBody (contentUrl 8 "rst") = some "" ∧
    (runOps tEmptyBody 8 [Op.srcUrl] initState).source = "" ∧
    (runOps tEmptyBody 8 [Op.srcUrl] initState).sourceUrl ≠ "" ∧
    (sourceGet tEmptyBody 8 (runOps tEmptyBody 8 [Op.srcUrl] initState)).2.2 ≠
      [] := by decide

/-- C2 witness: the constant transport with body "text" at identifier 8,
exercised with one `source` call followed by `source_url`. -/
theorem c2_lazy_pair_caching_witness :
    BothOrNone (runOps (fun _ => some "text") 8 [Op.src, Op.srcUrl] initState) ∧
    ({ source := "text", sourceUrl := contentUrl 8 "rst",
       sourceCache := some "text", sourceUrlCache := none } : FetchState).source ≠ "" ∧
    sourceUrlGet (fun _ => some "text") 8
        { source := "text", sourceUrl := contentUrl 8 "rst",
          sourceCache := some "text", sourceUrlCache := none } =
      (Except.ok (contentUrl 8 "rst"),
       { source := "text", sourceUrl := contentUrl 8 "rst",
         sourceCache := some "text", sourceUrlCache := some (contentUrl 8 "rst") },
       []) := by
  have hgood : ∀ u b, (fun _ : String => some "text") u = some b → b ≠ "" := by
    intro u b h
    simp only [Option.some.injEq] at h
    rw [← h]
    decide
  have H := c2_lazy_pair_caching (fun _ => some "text") 8 hgood
  have hfirst : sourceGet (fun _ : String => some "text") 8 initState =
      (Except.ok "text",
       { source := "text", sourceUrl := contentUrl 8 "rst",
         sourceCache := some "text", sourceUrlCache := none },
       [contentUrl 8 "rst"]) := by decide
  refine ⟨H.1 [Op.src, Op.srcUrl], ?_, ?_⟩
  · exact (H.2.1 "text" _ _ hfirst).1
  · exact (H.2.1 "text" _ _ hfirst).2.2

/-- C10 counterexample: fields are read top to bottom, so an entry that
lacks the `topic` key but holds an invalid `status` value fails with the
status `ValueError` — a validation error, not the claimed key-not-found
error — even though a read key is missing from the mapping. -/
theorem c10_missing_key_counterexample :
    dataBogus.lookup "topic" = none ∧
    "topic" ∈ readKeys ∧
    mkPEP (fun n => if n = 1 then some dataBogus else none) 0 1 =
      Except.error CtorErr.valueError := by decide

/-- C10 (amended): a raw mapping that lacks one of the fourteen keys read
at construction makes construction fail with the propagated key-not-found
error, provided no convertible field that IS present and read before the
missing key fails its own conversion (such an earlier-read invalid enum
or date value surfaces as a validation error instead; fields read after
the missing key are never reached and are unconstrained). -/
theorem c10_missing_key_keyerror (db : Nat → Option PEPData) (off : Int)
    (n : Nat) (data : PEPData) (k : String)
    (hdb : db n = some data)
    (hwf : PresentValidBefore off data k)
    (hk : k ∈ readKeys)
    (hmiss : data.lookup k = none) :
    mkPEP db off n = Except.error CtorErr.keyError := by
  obtain ⟨hWa, hWs, hWt, hWtp, hWc⟩ := hwf
  rcases h1 : data.lookup "title" with _ | v1
  · simp only [mkPEP, hdb, getField, okBind, errorBind, pureEqOk, h1]
  rcases h2 : data.lookup "authors" with _ | v2
  · simp only [mkPEP, hdb, getField, okBind, errorBind, pureEqOk, h1, h2]
  have hlt1 : readIdx "authors" < readIdx k := by
    have hkc := hk
    simp only [readKeys, List.mem_cons, List.not_mem_nil, or_false] at hkc
    rcases hkc with rfl | rfl | rfl | rfl | rfl | rfl | rfl | rfl | rfl |
      rfl | rfl | rfl | rfl | rfl <;>
      first
      | decide
      | simp_all
  have ha := hWa hlt1 v2 h2
  rcases ha2 : parseAuthors v2 with e | A
  · rw [ha2] at ha
    simp at ha
  rcases h3 : data.lookup "discussions_to" with _ | v3
  · simp only [mkPEP, hdb, getField, okBind, errorBind, pureEqOk, h1, h2, ha2, h3]
  rcases h4 : data.lookup "status" with _ | v4
  · simp only [mkPEP, hdb, getField, okBind, errorBind, pureEqOk, h1, h2, ha2, h3, h4]
  have hlt2 : readIdx "status" < readIdx k := by
    have hkc := hk
    simp only [readKeys, List.mem_cons, List.not_mem_nil, or_false] at hkc
    rcases hkc with rfl | rfl | rfl | rfl | rfl | rfl | rfl | rfl | rfl |
      rfl | rfl | rfl | rfl | rfl <;>
      first
      | decide
      | simp_all
  have hs := hWs hlt2 v4 h4
  rcases hs2 : parseStatus v4 with e | S
  · rw [hs2] at hs
    simp at hs
  rcases h5 : data.lookup "type" with _ | v5
  · simp only [mkPEP, hdb, getField, okBind, errorBind, pureEqOk, h1, h2, ha2, h3, h4, hs2, h5]
  have hlt3 : readIdx "type" < readIdx k := by
    have hkc := hk
    simp only [readKeys, List.mem_cons, List.not_mem_nil, or_false] at hkc
    rcases hkc with rfl | rfl | rfl | rfl | rfl | rfl | rfl | rfl | rfl |
      rfl | rfl | rfl | rfl | rfl <;>
      first
      | decide
      | simp_all
  have ht := hWt hlt3 v5 h5
  rcases ht2 : parseType v5 with e | T
  · rw [ht2] at ht
    simp at ht
  rcases h6 : data.lookup "topic" with _ | v6
  · simp only [mkPEP, hdb, getField, okBind, errorBind, pureEqOk, h1, h2, ha2, h3, h4, hs2, h5, ht2, h6]
  have hlt4 : readIdx "topic" < readIdx k := by
    have hkc := hk
    simp only [readKeys, List.mem_cons, List.not_mem_nil, or_false] at hkc
    rcases hkc with rfl | rfl | rfl | rfl | rfl | rfl | rfl | rfl | rfl |
      rfl | rfl | rfl | rfl | rfl <;>
      first
      | decide
      | simp_all
  have htp := hWtp hlt4 v6 h6
  rcases htp2 : parseTopics v6 with e | TP
  · rw [htp2] at htp
    simp at htp
  rcases h7 : data.lookup "created" with _ | v7
  · simp only [mkPEP, hdb, getField, okBind, errorBind, pureEqOk, h1, h2, ha2, h3, h4, hs2, h5, ht2, h6, htp2, h7]
  have hlt5 : readIdx "created" < readIdx k := by
    have hkc := hk
    simp only [readKeys, List.mem_cons, List.not_mem_nil, or_false] at hkc
    rcases hkc with rfl | rfl | rfl | rfl | rfl | rfl | rfl | rfl | rfl |
      rfl | rfl | rfl | rfl | rfl <;>
      first
      | decide
      | simp_all
  have hcr := hWc hlt5 v7 h7
  rcases hcr2 : parseCreated off v7 with e | CR
  · rw [hcr2] at hcr
    simp at hcr
  rcases h8 : data.lookup "python_version" with _ | v8
  · simp only [mkPEP, hdb, getField, okBind, errorBind, pureEqOk, h1, h2, ha2, h3, h4, hs2, h5, ht2, h6, htp2,
          h7, hcr2, h8]
  rcases h9 : data.lookup "post_history" with _ | v9
  · simp only [mkPEP, hdb, getField, okBind, errorBind, pureEqOk, h1, h2, ha2, h3, h4, hs2, h5, ht2, h6, htp2,
          h7, hcr2, h8, h9]
  rcases h10 : data.lookup "resolution" with _ | v10
  · simp only [mkPEP, hdb, getField, okBind, errorBind, pureEqOk, h1, h2, ha2, h3, h4, hs2, h5, ht2, h6, htp2,
          h7, hcr2, h8, h9, h10]
  rcases h11 : data.lookup "requires" with _ | v11
  · simp only [mkPEP, hdb, getField, okBind, errorBind, pureEqOk, h1, h2, ha2, h3, h4, hs2, h5, ht2, h6, htp2,
          h7, hcr2, h8, h9, h10, h11]
  rcases h12 : data.lookup "replaces" with _ | v12
  · simp only [mkPEP, hdb, getField, okBind, errorBind, pureEqOk, h1, h2, ha2, h3, h4, hs2, h5, ht2, h6, htp2,
          h7, hcr2, h8, h9, h10, h11, h12]
  rcases h13 : data.lookup "superseded_by" with _ | v13
  · simp only [mkPEP, hdb, getField, okBind, errorBind, pureEqOk, h1, h2, ha2, h3, h4, hs2, h5, ht2, h6, htp2,
          h7, hcr2, h8, h9, h10, h11, h12, h13]
  rcases h14 : data.lookup "url" with _ | v14
  · simp only [mkPEP, hdb, getField, okBind, errorBind, pureEqOk, h1, h2, ha2, h3, h4, hs2, h5, ht2, h6, htp2,
          h7, hcr2, h8, h9, h10, h11, h12, h13, h14]
  exfalso
  simp only [readKeys, List.mem_cons, List.not_mem_nil, or_false] at hk
  rcases hk with rfl | rfl | rfl | rfl | rfl | rfl | rfl | rfl | rfl | rfl |
    rfl | rfl | rfl | rfl <;> simp_all

/-- C10 witness: two concrete entries at identifier 1 — one lacking
`topic` with every earlier field valid, and one lacking `title` (the
first read) while carrying an invalid `status` value that is read only
later and hence unconstrained. -/
theorem c10_missing_key_keyerror_witness :
    (dataNoTopic.lookup "topic" = none ∧
     mkPEP (fun n => if n = 1 then some dataNoTopic else none) 0 1 =
       Except.error CtorErr.keyError) ∧
    (dataNoTitle.lookup "title" = none ∧
     dataNoTitle.lookup "status" = some (some "Bogus") ∧
     mkPEP (fun n => if n = 1 then some dataNoTitle else none) 0 1 =
       Except.error CtorErr.keyError) := by
  have hpv : PresentValidBefore 0 dataNoTopic "topic" := by
    refine ⟨?_, ?_, ?_, ?_, ?_⟩
    · intro hlt v h
      have h2 : some (some "A") = some v := h
      obtain rfl : some "A" = v := by injection h2
      decide
    · intro hlt v h
      have h2 : some (some "Active") = some v := h
      obtain rfl : some "Active" = v := by injection h2
      decide
    · intro hlt v h
      have h2 : some (some "Process") = some v := h
      obtain rfl : some "Process" = v := by injection h2
      decide
    · intro hlt
      exact absurd hlt (by decide)
    · intro hlt
      exact absurd hlt (by decide)
  have hpv2 : PresentValidBefore 0 dataNoTitle "title" := by
    refine ⟨?_, ?_, ?_, ?_, ?_⟩ <;>
      (intro hlt; exact absurd hlt (by decide))
  refine ⟨⟨by decide, ?_⟩, ⟨by decide, by decide, ?_⟩⟩
  · exact c10_missing_key_keyerror
      (fun n => if n = 1 then some dataNoTopic else none)
      0 1 dataNoTopic "topic" (by decide) hpv (by decide) (by decide)
  · exact c10_missing_key_keyerror
      (fun n => if n = 1 then some dataNoTitle else none)
      0 1 dataNoTitle "title" (by decide) hpv2 (by decide) (by decide)

/-- C9 witness: the example entry (with a valid topic so construction
succeeds), checked at author "Jeremy Hylton". -/
theorem c9_authors_is_split_set_witness :
    db8t 8 = some data8t ∧
    data8t.lookup "authors" = some (some "Barry Warsaw, Jeremy Hylton") ∧
    isOk (mkPEP db8t 0 8) = true ∧
    ("Jeremy Hylton" ∈ authorsOf (mkPEP db8t 0 8) ↔
      "Jeremy Hylton" ∈ pySplit "Barry Warsaw, Jeremy Hylton" ", ") :=
  ⟨by decide, by decide, by decide,
   c9_authors_is_split_set db8t 0 8 data8t "Barry Warsaw, Jeremy Hylton"
     (by decide) (by decide) (by decide) "Jeremy Hylton"⟩

end Pepperbox
